import Mathlib

/-!
OGGM-Edu glacier progression controller: formal model and verification.

A shallow embedding of the glacier progression and equilibrium-detection
state machine driven by the OGGM-Edu notebooks.  The notebooks call into the
`oggm_edu` library (`Glacier`, `MassBalance`, `GlacierBed`), whose source is
not part of the notebook corpus, so every definition below is modelled from
the repository's specification of that controller (progression, climate-bias
scheduling, equilibrium detection, response time).  Scalar quantities
(lengths, areas, volumes, biases) are modelled as rationals; the external
one-year ice-flow step is an opaque function parameter.
-/

namespace OggmEdu

/-- Modelled from the spec: the glacier bed, "an ordered sequence of
(altitude, width) samples"; immutable once constructed.  The derived slope
and plotting are irrelevant to the verified claims. -/
structure GlacierBed where
  samples : List (ℚ × ℚ)
deriving DecidableEq

/-- Modelled from the spec: the geometry scalars produced by the external
ice-flow step function (derived length/area/volume). -/
structure Geom where
  length : ℚ
  area : ℚ
  volume : ℚ
deriving DecidableEq

/-- Modelled from the spec: a history record entry, "(year, length, area,
volume, bias)", one per simulated year. -/
structure HistEntry where
  year : ℕ
  length : ℚ
  area : ℚ
  volume : ℚ
  bias : ℚ
deriving DecidableEq

/-- Modelled from the spec: a recorded equilibrium state, "(year, volume,
length, area) snapshot taken when equilibrium was detected". -/
structure EqState where
  year : ℕ
  volume : ℚ
  length : ℚ
  area : ℚ
deriving DecidableEq

/-- Modelled from the spec: the `MassBalance` object: ELA, altitude
gradient, "a mutable temperature-bias value", and "a time-indexed bias
series (append-only sequence of (year, bias) pairs)".  A single gradient
segment suffices for the claims (segments only change the opaque
mass-balance function handed to the external step). -/
structure MassBalance where
  ela : ℚ
  gradient : ℚ
  temp_bias : ℚ
  temp_bias_series : List (ℕ × ℚ)
deriving DecidableEq

/-- Modelled from the spec: the climate-change schedule set by
`add_temperature_bias`: "a linear ramp of the mass-balance bias from its
current value to `bias` over `duration` years, starting at `current_year`". -/
structure RampSchedule where
  start_year : ℕ
  start_bias : ℚ
  target_bias : ℚ
  duration : ℕ
deriving DecidableEq

/-- Modelled from the spec: the `Glacier`: owns a bed and a mass balance,
holds the current simulated year, current geometry, the append-only history,
the list of recorded equilibrium states, and the (optional) active
climate-change schedule. -/
structure Glacier where
  bed : GlacierBed
  mass_balance : MassBalance
  current_year : ℕ
  geometry : Geom
  history : List HistEntry
  eq_states : List EqState
  schedule : Option RampSchedule
deriving DecidableEq

/-- Modelled from the spec: warnings are surfaced as non-fatal notices and
never unwind: `NoOpWarning` for progression to a year at or before the
current year, `ConvergenceWarning` for an equilibrium search that exceeded
`max_years`. -/
inductive Warning where
  | noOp
  | convergence
deriving DecidableEq

/-- Modelled from the spec: the external one-year ice-flow step, "an opaque,
deterministic function call" consuming the bed, the biased mass-balance
function (elevation to annual mass balance) and the current geometry, and
producing the next year's geometry. -/
def StepFun : Type :=
  GlacierBed → (ℚ → ℚ) → Geom → Geom

/-- Modelled from the spec: the biased mass-balance function: "the bias
uniformly shifts the elevation used to evaluate the mass-balance gradient",
i.e. it shifts the effective ELA. -/
def MassBalance.biased_fn (mb : MassBalance) (bias : ℚ) : ℚ → ℚ :=
  fun z => mb.gradient * (z - (mb.ela + bias))

/-- First recorded value for a given year in a (year, bias) series. -/
def seriesLookup (s : List (ℕ × ℚ)) (y : ℕ) : Option ℚ :=
  match s with
  | [] => none
  | e :: rest => if e.1 = y then some e.2 else seriesLookup rest y

/-- Modelled from the spec: progression step 1: "if the mass-balance bias
series already has a recorded value at `y`, use it; otherwise use the mass
balance's current constant bias value and append it to the series at
year `y`".  Returns the active bias and the (possibly extended) mass
balance. -/
def MassBalance.activeBias (mb : MassBalance) (y : ℕ) : ℚ × MassBalance :=
  match seriesLookup mb.temp_bias_series y with
  | some b => (b, mb)
  | none =>
      (mb.temp_bias,
       { mb with temp_bias_series := mb.temp_bias_series ++ [(y, mb.temp_bias)] })

/-- Modelled from the spec: progression step 2: "linear interpolation
between the bias at schedule start and the target bias, clamped to the
target once the duration elapses". -/
def RampSchedule.biasAt (s : RampSchedule) (y : ℕ) : ℚ :=
  if s.start_year + s.duration ≤ y then s.target_bias
  else s.start_bias +
    (s.target_bias - s.start_bias) * (((y : ℚ) - (s.start_year : ℚ)) / (s.duration : ℚ))

/-- Modelled from the spec: one iteration of the progression loop for the
year `current_year + 1`: determine the active bias (series value, else
constant bias appended to the series), let an active climate-change
schedule override it, invoke the external ice-flow step with the biased
mass-balance function, append the history entry and advance the year. -/
def Glacier.progress_one_year (step : StepFun) (g : Glacier) : Glacier :=
  let y := g.current_year + 1
  let p := g.mass_balance.activeBias y
  match g.schedule with
  | none =>
      let geom := step g.bed (p.2.biased_fn p.1) g.geometry
      { g with
        mass_balance := p.2
        current_year := y
        geometry := geom
        history := g.history ++ [⟨y, geom.length, geom.area, geom.volume, p.1⟩] }
  | some s =>
      let b := s.biasAt y
      let mb := { p.2 with temp_bias := b }
      let geom := step g.bed (mb.biased_fn b) g.geometry
      { g with
        mass_balance := mb
        schedule := if s.start_year + s.duration ≤ y then none else some s
        current_year := y
        geometry := geom
        history := g.history ++ [⟨y, geom.length, geom.area, geom.volume, b⟩] }

/-- Advance the glacier by `n` successive one-year steps. -/
def Glacier.progressYears (step : StepFun) (g : Glacier) : ℕ → Glacier
  | 0 => g
  | n + 1 => Glacier.progressYears step (g.progress_one_year step) n

/-- Modelled from the spec: `progress_to_year(target_year)`: "if
`target_year <= current_year`, perform no state change; signal a
`NoOpWarning` (not an error) and return", otherwise advance year by year to
the target. -/
def Glacier.progress_to_year (step : StepFun) (g : Glacier) (target : ℕ) :
    Glacier × Option Warning :=
  if target ≤ g.current_year then (g, some Warning.noOp)
  else (g.progressYears step (target - g.current_year), none)

/-- Volume recorded in the history at a given year (first match). -/
def volumeAt (hist : List HistEntry) (y : ℕ) : Option ℚ :=
  match hist with
  | [] => none
  | e :: rest => if e.year = y then some e.volume else volumeAt rest y

/-- Modelled from the spec: the equilibrium test: "compute the relative
change in volume over the last N years (a fixed small window ...); if the
maximum relative change across the window is below `rate_tolerance`,
declare equilibrium".  The relative comparison `|v2 - v1| / |v1| < tol` is
stated multiplicatively to avoid division. -/
def eqCheck (window : ℕ) (tol : ℚ) (g : Glacier) : Bool :=
  if window ≤ g.current_year then
    match volumeAt g.history (g.current_year - window),
          volumeAt g.history g.current_year with
    | some v1, some v2 => |v2 - v1| < tol * |v1|
    | _, _ => false
  else false

/-- Modelled from the spec: "append `(current_year, volume, length, area)`
to the equilibrium-states list". -/
def Glacier.record_eq_state (g : Glacier) : Glacier :=
  { g with
    eq_states := g.eq_states ++
      [⟨g.current_year, g.geometry.volume, g.geometry.length, g.geometry.area⟩] }

/-- Modelled from the spec: the equilibrium search loop: advance one year at
a time; if the tolerance is met declare equilibrium and record the state; if
the year budget is exhausted, "stop anyway and still record the last state
as a best-effort equilibrium (with a warning)". -/
def Glacier.equilibriumLoop (step : StepFun) (tol : ℚ) (window : ℕ) (g : Glacier) :
    ℕ → Glacier × Option Warning
  | 0 => (g.record_eq_state, some Warning.convergence)
  | n + 1 =>
      let g1 := g.progress_one_year step
      if eqCheck window tol g1 then (g1.record_eq_state, none)
      else Glacier.equilibriumLoop step tol window g1 n

/-- Modelled from the spec: `progress_to_equilibrium(max_years,
rate_tolerance)`. -/
def Glacier.progress_to_equilibrium (step : StepFun) (tol : ℚ) (window max_years : ℕ)
    (g : Glacier) : Glacier × Option Warning :=
  g.equilibriumLoop step tol window max_years

/-- Modelled from the spec: `add_temperature_bias(bias, duration)`:
schedules a linear ramp "from its current value to `bias` over `duration`
years, starting at `current_year`"; it "does not itself advance time".
(The optional noise argument adds random perturbation to the realized
yearly values and is outside the deterministic model.) -/
def Glacier.add_temperature_bias (g : Glacier) (bias : ℚ) (duration : ℕ) : Glacier :=
  { g with
    schedule := some ⟨g.current_year, g.mass_balance.temp_bias, bias, duration⟩ }

/-- Modelled from the spec: assigning a new sequence to the bias series "is
interpreted as appending/replacing the *future* portion beyond the current
year — past entries are never altered": entries at years at most
`current_year` are kept, and the new values occupy the years
`current_year + 1`, `current_year + 2`, .... -/
def MassBalance.set_temp_bias_series (mb : MassBalance) (current_year : ℕ)
    (new : List ℚ) : MassBalance :=
  { mb with
    temp_bias_series :=
      mb.temp_bias_series.filter (fun e => e.1 ≤ current_year) ++
        (List.range' (current_year + 1) new.length 1).zip new }

/-- Modelled from the spec: following the low-pass-climate notebook,
`add_random_climate(duration, temperature_range)` populates the bias series
with `duration` future yearly entries drawn uniformly from
`[lo, hi]`; the random source is modelled as a function `u` of draws in
`[0, 1]`, the drawn value for year `current_year + 1 + i` being
`lo + (hi - lo) * u i`.  Time does not advance. -/
def Glacier.add_random_climate (g : Glacier) (duration : ℕ) (lo hi : ℚ)
    (u : ℕ → ℚ) : Glacier :=
  { g with
    mass_balance :=
      { g.mass_balance with
        temp_bias_series :=
          g.mass_balance.temp_bias_series ++
            (List.range duration).map
              (fun i => (g.current_year + 1 + i, lo + (hi - lo) * u i)) } }

/-- Modelled from the spec: glacier construction from a (bed, mass balance)
pair "with history empty and year = 0". -/
def Glacier.init (bed : GlacierBed) (mb : MassBalance) : Glacier :=
  { bed := bed
    mass_balance := mb
    current_year := 0
    geometry := ⟨0, 0, 0⟩
    history := []
    eq_states := []
    schedule := none }

/-- Modelled from the spec: `reset()` "returns a Glacier to year 0 with
empty history while preserving its Bed/MassBalance identity (but typically a
fresh MassBalance bias series)". -/
def Glacier.reset (g : Glacier) : Glacier :=
  Glacier.init g.bed { g.mass_balance with temp_bias_series := [] }

/-- Modelled from the spec: whether a sampled volume has passed the
response-time threshold `V2 - (V2 - V1) * einv` in the direction of the
adjustment (`einv` stands for the irrational constant `1/e`, abstracted as
a parameter). -/
def thresholdPassed (einv v1 v2 v : ℚ) : Bool :=
  if v1 ≤ v2 then v2 - (v2 - v1) * einv ≤ v else v ≤ v2 - (v2 - v1) * einv

/-- Whether the recorded volume trajectory has passed the threshold at
year `t`. -/
def crossingAt (einv v1 v2 : ℚ) (hist : List HistEntry) (t : ℕ) : Bool :=
  match volumeAt hist t with
  | some v => thresholdPassed einv v1 v2 v
  | none => false

/-- Earliest year in `[t1, t2]` at which the recorded volume trajectory has
passed the threshold. -/
def firstCrossing (einv v1 v2 : ℚ) (hist : List HistEntry) (t1 t2 : ℕ) : Option ℕ :=
  (List.range' t1 (t2 + 1 - t1) 1).find? (crossingAt einv v1 v2 hist)

/-- Modelled from the spec: the `response_time` property: with fewer than
two equilibrium states it signals `InsufficientHistoryError`; otherwise,
with consecutive equilibrium volumes `V1` (earlier, year `t1`) and `V2`
(later, year `t2`), it is the first year offset `τ` from `t1` at which the
recorded volume trajectory has passed `V2 - (V2 - V1) * einv` ("the system
has completed `1 - 1/e` of its total adjustment"); when no sampled crossing
exists the full span `t2 - t1` is the best-effort answer. -/
def Glacier.response_time (einv : ℚ) (g : Glacier) : Except String ℕ :=
  match g.eq_states.reverse with
  | e2 :: e1 :: _ =>
      match firstCrossing einv e1.volume e2.volume g.history e1.year e2.year with
      | some t => Except.ok (t - e1.year)
      | none => Except.ok (e2.year - e1.year)
  | _ => Except.error "InsufficientHistoryError"

/-! Basic lemmas about one-year progression -/

theorem MassBalance.activeBias_snd_series (mb : MassBalance) (y : ℕ) :
    (mb.activeBias y).2.temp_bias_series = mb.temp_bias_series ∨
      (mb.activeBias y).2.temp_bias_series = mb.temp_bias_series ++ [(y, mb.temp_bias)] := by
  unfold MassBalance.activeBias
  cases seriesLookup mb.temp_bias_series y <;> simp

theorem MassBalance.activeBias_snd_ela (mb : MassBalance) (y : ℕ) :
    (mb.activeBias y).2.ela = mb.ela := by
  unfold MassBalance.activeBias
  cases seriesLookup mb.temp_bias_series y <;> rfl

theorem MassBalance.activeBias_snd_temp_bias (mb : MassBalance) (y : ℕ) :
    (mb.activeBias y).2.temp_bias = mb.temp_bias := by
  unfold MassBalance.activeBias
  cases seriesLookup mb.temp_bias_series y <;> rfl

theorem Glacier.progress_one_year_current_year (step : StepFun) (g : Glacier) :
    (g.progress_one_year step).current_year = g.current_year + 1 := by
  unfold Glacier.progress_one_year
  cases g.schedule <;> simp

theorem Glacier.progress_one_year_eq_states (step : StepFun) (g : Glacier) :
    (g.progress_one_year step).eq_states = g.eq_states := by
  unfold Glacier.progress_one_year
  cases g.schedule <;> simp

theorem Glacier.progress_one_year_bed (step : StepFun) (g : Glacier) :
    (g.progress_one_year step).bed = g.bed := by
  unfold Glacier.progress_one_year
  cases g.schedule <;> simp

theorem Glacier.progress_one_year_history (step : StepFun) (g : Glacier) :
    ∃ e : HistEntry, (g.progress_one_year step).history = g.history ++ [e] ∧
      e.year = g.current_year + 1 := by
  unfold Glacier.progress_one_year
  cases g.schedule <;> exact ⟨_, rfl, rfl⟩

/-! Lemmas about multi-year progression -/

theorem Glacier.progressYears_succ (step : StepFun) (g : Glacier) (n : ℕ) :
    g.progressYears step (n + 1) = (g.progress_one_year step).progressYears step n :=
  rfl

theorem Glacier.progressYears_add (step : StepFun) (g : Glacier) (m n : ℕ) :
    g.progressYears step (m + n) = (g.progressYears step m).progressYears step n := by
  induction m generalizing g with
  | zero => rw [Nat.zero_add]; rfl
  | succ m ih =>
      have : m + 1 + n = (m + n) + 1 := by omega
      rw [this, Glacier.progressYears_succ, Glacier.progressYears_succ, ih]

theorem Glacier.progressYears_current_year (step : StepFun) (g : Glacier) (n : ℕ) :
    (g.progressYears step n).current_year = g.current_year + n := by
  induction n generalizing g with
  | zero => rfl
  | succ n ih =>
      rw [Glacier.progressYears_succ, ih, Glacier.progress_one_year_current_year]
      omega

theorem Glacier.progressYears_eq_states (step : StepFun) (g : Glacier) (n : ℕ) :
    (g.progressYears step n).eq_states = g.eq_states := by
  induction n generalizing g with
  | zero => rfl
  | succ n ih =>
      rw [Glacier.progressYears_succ, ih, Glacier.progress_one_year_eq_states]

theorem Glacier.progressYears_history_years (step : StepFun) (g : Glacier) (n : ℕ) :
    (g.progressYears step n).history.map HistEntry.year =
      g.history.map HistEntry.year ++ List.range' (g.current_year + 1) n 1 := by
  induction n generalizing g with
  | zero => simp [Glacier.progressYears]
  | succ n ih =>
      rw [Glacier.progressYears_succ, ih]
      obtain ⟨e, he, hy⟩ := g.progress_one_year_history step
      rw [Glacier.progress_one_year_current_year, he]
      simp only [List.map_append, List.map_cons, List.map_nil, List.append_assoc, hy]
      rw [List.range'_succ]
      simp [Nat.add_assoc]

theorem Glacier.progressYears_history_length (step : StepFun) (g : Glacier) (n : ℕ) :
    (g.progressYears step n).history.length = g.history.length + n := by
  have h := g.progressYears_history_years step n
  have := congrArg List.length h
  simpa using this

/-! Concrete instances used to exercise the model -/

/-- The bed of the introductory notebook: top 3400 m, bottom 1500 m,
width 300 m. -/
def demoBed : GlacierBed :=
  ⟨[(3400, 300), (1500, 300)]⟩

/-- The mass balance of the introductory notebook: ELA 3000 m,
gradient 4 mm/yr/m, no bias. -/
def demoMB : MassBalance :=
  ⟨3000, 4, 0, []⟩

/-- A concrete deterministic one-year ice-flow step used to instantiate the
opaque external step function: grows each geometry scalar by one unit per
year. -/
def demoStep : StepFun :=
  fun _ _ geom => ⟨geom.length + 1, geom.area + 1, geom.volume + 1⟩

/-- A fresh glacier over the demo bed and mass balance. -/
def demoGlacier : Glacier :=
  Glacier.init demoBed demoMB

/-! C1: progression to a past year is a warned no-op -/

/-- C1: for every glacier and every `target_year` with
`target_year ≤ current_year`, `progress_to_year(target_year)` changes no
state (the glacier value — year, history, geometry, bias series — is
returned unchanged) and signals a `NoOpWarning` rather than raising an
error; in particular, after `progress_to_year(500)`, a call
`progress_to_year(450)` leaves the year at 500. -/
theorem C1_noop_progression (step : StepFun) (g : Glacier) (target : ℕ)
    (h : target ≤ g.current_year) :
    g.progress_to_year step target = (g, some Warning.noOp) := by
  unfold Glacier.progress_to_year
  simp [h]

/-- Witness for C1: the demo glacier progressed to year 500 and then asked
to progress to year 450 is returned unchanged with a `NoOpWarning`, its year
still 500. -/
theorem C1_noop_progression_witness :
    450 ≤ (demoGlacier.progress_to_year demoStep 500).1.current_year ∧
      ((demoGlacier.progress_to_year demoStep 500).1.progress_to_year demoStep 450 =
        ((demoGlacier.progress_to_year demoStep 500).1, some Warning.noOp) ∧
       ((demoGlacier.progress_to_year demoStep 500).1.progress_to_year
          demoStep 450).1.current_year = 500) := by
  have hy : (demoGlacier.progress_to_year demoStep 500).1.current_year = 500 := by
    norm_num [Glacier.progress_to_year, demoGlacier, Glacier.init,
      Glacier.progressYears_current_year]
  have h450 : 450 ≤ (demoGlacier.progress_to_year demoStep 500).1.current_year := by
    omega
  have main := C1_noop_progression demoStep
    (demoGlacier.progress_to_year demoStep 500).1 450 h450
  exact ⟨h450, main, by rw [main]; exact hy⟩

/-! C2: forward progression advances exactly to the target with one
history entry per year -/

/-- C2: for every glacier at `current_year` `c` and target `Y > c`, after
`progress_to_year(Y)` the year equals `Y` and the history has gained exactly
`Y - c` entries; from a fresh glacier (year 0, empty history) the history
after reaching year `Y` has exactly `Y` entries whose year keys form the
contiguous sequence `1..Y`. -/
theorem C2_progression_postcondition (step : StepFun) (g : Glacier) (target : ℕ)
    (h : g.current_year < target) :
    (g.progress_to_year step target).1.current_year = target ∧
      (g.progress_to_year step target).1.history.length =
        g.history.length + (target - g.current_year) ∧
      (g.current_year = 0 → g.history = [] →
        (g.progress_to_year step target).1.history.map HistEntry.year =
          List.range' 1 target 1) := by
  have hne : ¬ target ≤ g.current_year := by omega
  unfold Glacier.progress_to_year
  rw [if_neg hne]
  refine ⟨?_, ?_, ?_⟩
  · rw [Glacier.progressYears_current_year]; omega
  · rw [Glacier.progressYears_history_length]
  · intro h0 hh
    rw [Glacier.progressYears_history_years, h0, hh]
    simp

/-- Witness for C2: progressing the fresh demo glacier to year 7 gives year
7 and history years `1..7`. -/
theorem C2_progression_postcondition_witness :
    demoGlacier.current_year < 7 ∧
      ((demoGlacier.progress_to_year demoStep 7).1.current_year = 7 ∧
       (demoGlacier.progress_to_year demoStep 7).1.history.length =
         demoGlacier.history.length + (7 - demoGlacier.current_year) ∧
       (demoGlacier.current_year = 0 → demoGlacier.history = [] →
         (demoGlacier.progress_to_year demoStep 7).1.history.map HistEntry.year =
           List.range' 1 7 1)) :=
  ⟨by decide, C2_progression_postcondition demoStep demoGlacier 7 (by decide)⟩

/-! C3: intermediate checkpoints do not change the final state -/

/-- C3: for all years `y2 > y1 ≥ 0`, calling `progress_to_year(y1)` and then
`progress_to_year(y2)` on a fresh glacier (year 0) yields exactly the same
final glacier state (year, geometry, history, bias series) as calling
`progress_to_year(y2)` directly. -/
theorem C3_checkpoint_composition (step : StepFun) (g : Glacier)
    (h0 : g.current_year = 0) (y1 y2 : ℕ) (h : y1 < y2) :
    ((g.progress_to_year step y1).1.progress_to_year step y2).1 =
      (g.progress_to_year step y2).1 := by
  rcases Nat.eq_zero_or_pos y1 with h1 | h1
  · subst h1
    simp [Glacier.progress_to_year, h0]
  · have hne1 : ¬ y1 ≤ g.current_year := by omega
    have hne2 : ¬ y2 ≤ g.current_year := by omega
    have hcy : (g.progressYears step (y1 - g.current_year)).current_year = y1 := by
      rw [Glacier.progressYears_current_year]; omega
    have hne3 : ¬ y2 ≤ (g.progressYears step (y1 - g.current_year)).current_year := by
      rw [hcy]; omega
    simp only [Glacier.progress_to_year, if_neg hne1]
    simp only [if_neg hne3, if_neg hne2]
    rw [hcy, ← Glacier.progressYears_add]
    congr 1
    omega

/-- Witness for C3: on the fresh demo glacier, progressing to year 3 and
then to year 8 equals progressing to year 8 directly. -/
theorem C3_checkpoint_composition_witness :
    demoGlacier.current_year = 0 ∧ 3 < 8 ∧
      ((demoGlacier.progress_to_year demoStep 3).1.progress_to_year demoStep 8).1 =
        (demoGlacier.progress_to_year demoStep 8).1 :=
  ⟨rfl, by decide, C3_checkpoint_composition demoStep demoGlacier rfl 3 8 (by decide)⟩

/-! C9: reset-then-progress equals fresh-construction-then-progress -/

/-- C9: for every glacier with a given bed and mass balance and no injected
noise, `reset()` (year 0, empty history, fresh bias series) followed by
`progress_to_year(Y)` produces bit-for-bit the same history as constructing
a brand-new glacier from the same bed/mass-balance configuration and
progressing it to `Y`. -/
theorem C9_reset_determinism (step : StepFun) (g : Glacier) (mb0 : MassBalance)
    (Y : ℕ) (hela : mb0.ela = g.mass_balance.ela)
    (hgrad : mb0.gradient = g.mass_balance.gradient)
    (hbias : mb0.temp_bias = g.mass_balance.temp_bias)
    (hser : mb0.temp_bias_series = []) :
    (g.reset.progress_to_year step Y).1.history =
      ((Glacier.init g.bed mb0).progress_to_year step Y).1.history := by
  have hmb : { g.mass_balance with temp_bias_series := ([] : List (ℕ × ℚ)) } = mb0 := by
    cases mb0
    simp only at hela hgrad hbias hser
    simp [hela, hgrad, hbias, hser]
  unfold Glacier.reset
  rw [hmb]

/-- Witness for C9: resetting the demo glacier progressed to year 4 and
re-progressing to year 6 reproduces the history of a brand-new glacier
progressed to year 6. -/
theorem C9_reset_determinism_witness :
    demoMB.ela = (demoGlacier.progress_to_year demoStep 4).1.mass_balance.ela ∧
      demoMB.gradient = (demoGlacier.progress_to_year demoStep 4).1.mass_balance.gradient ∧
      demoMB.temp_bias = (demoGlacier.progress_to_year demoStep 4).1.mass_balance.temp_bias ∧
      demoMB.temp_bias_series = [] ∧
      ((demoGlacier.progress_to_year demoStep 4).1.reset.progress_to_year demoStep 6).1.history =
        ((Glacier.init (demoGlacier.progress_to_year demoStep 4).1.bed
            demoMB).progress_to_year demoStep 6).1.history :=
  ⟨by decide, by decide, by decide, rfl,
   C9_reset_determinism demoStep (demoGlacier.progress_to_year demoStep 4).1 demoMB 6
     (by decide) (by decide) (by decide) rfl⟩

/-! Lemmas about the equilibrium search -/

theorem Glacier.record_eq_state_current_year (g : Glacier) :
    g.record_eq_state.current_year = g.current_year :=
  rfl

theorem Glacier.equilibriumLoop_eq_states (step : StepFun) (tol : ℚ) (window : ℕ) :
    ∀ (n : ℕ) (g : Glacier),
      (g.equilibriumLoop step tol window n).1.eq_states =
        g.eq_states ++
          [⟨(g.equilibriumLoop step tol window n).1.current_year,
            (g.equilibriumLoop step tol window n).1.geometry.volume,
            (g.equilibriumLoop step tol window n).1.geometry.length,
            (g.equilibriumLoop step tol window n).1.geometry.area⟩]
  | 0, g => rfl
  | n + 1, g => by
      cases hc : eqCheck window tol (g.progress_one_year step) with
      | true =>
          simp only [Glacier.equilibriumLoop, hc, if_true]
          simp [Glacier.record_eq_state, Glacier.progress_one_year_eq_states]
      | false =>
          simp only [Glacier.equilibriumLoop, hc, Bool.false_eq_true, if_false]
          rw [Glacier.equilibriumLoop_eq_states step tol window n (g.progress_one_year step),
            Glacier.progress_one_year_eq_states]

theorem Glacier.equilibriumLoop_current_year_le (step : StepFun) (tol : ℚ) (window : ℕ) :
    ∀ (n : ℕ) (g : Glacier),
      g.current_year ≤ (g.equilibriumLoop step tol window n).1.current_year
  | 0, _ => le_of_eq rfl
  | n + 1, g => by
      cases hc : eqCheck window tol (g.progress_one_year step) with
      | true =>
          simp only [Glacier.equilibriumLoop, hc, if_true,
            Glacier.record_eq_state_current_year, Glacier.progress_one_year_current_year]
          omega
      | false =>
          simp only [Glacier.equilibriumLoop, hc, Bool.false_eq_true, if_false]
          have h1 := Glacier.equilibriumLoop_current_year_le step tol window n
            (g.progress_one_year step)
          rw [Glacier.progress_one_year_current_year] at h1
          omega

theorem Glacier.equilibriumLoop_current_year_lt (step : StepFun) (tol : ℚ) (window n : ℕ)
    (g : Glacier) (h : 1 ≤ n) :
    g.current_year < (g.equilibriumLoop step tol window n).1.current_year := by
  cases n with
  | zero => omega
  | succ n =>
      cases hc : eqCheck window tol (g.progress_one_year step) with
      | true =>
          simp only [Glacier.equilibriumLoop, hc, if_true,
            Glacier.record_eq_state_current_year, Glacier.progress_one_year_current_year]
          omega
      | false =>
          simp only [Glacier.equilibriumLoop, hc, Bool.false_eq_true, if_false]
          have h1 := Glacier.equilibriumLoop_current_year_le step tol window n
            (g.progress_one_year step)
          rw [Glacier.progress_one_year_current_year] at h1
          omega

/-! C5: the equilibrium-states list is append-only with strictly
increasing years, and equilibrium search is restart-safe -/

/-- C5: `progress_to_year` never touches the equilibrium-states list;
`progress_to_equilibrium` (with a positive year budget) appends exactly one
new entry — discarding or modifying nothing — whose year strictly exceeds
the current year and hence the year of every previously recorded
equilibrium state, so a second call after a new bias schedule records a
second equilibrium without discarding the first. -/
theorem C5_eq_states_append_only (step : StepFun) (tol : ℚ) (window max_years t : ℕ)
    (g : Glacier) (hm : 1 ≤ max_years) :
    (g.progress_to_year step t).1.eq_states = g.eq_states ∧
      (∃ e : EqState,
        (g.progress_to_equilibrium step tol window max_years).1.eq_states =
          g.eq_states ++ [e] ∧
        g.current_year < e.year ∧
        (∀ e' ∈ g.eq_states, e'.year ≤ g.current_year → e'.year < e.year)) := by
  constructor
  · unfold Glacier.progress_to_year
    by_cases ht : t ≤ g.current_year
    · rw [if_pos ht]
    · rw [if_neg ht]
      exact Glacier.progressYears_eq_states step g (t - g.current_year)
  · refine ⟨⟨(g.progress_to_equilibrium step tol window max_years).1.current_year,
      (g.progress_to_equilibrium step tol window max_years).1.geometry.volume,
      (g.progress_to_equilibrium step tol window max_years).1.geometry.length,
      (g.progress_to_equilibrium step tol window max_years).1.geometry.area⟩,
      Glacier.equilibriumLoop_eq_states step tol window max_years g, ?_, ?_⟩
    · exact Glacier.equilibriumLoop_current_year_lt step tol window max_years g hm
    · intro e' _ he'
      have := Glacier.equilibriumLoop_current_year_lt step tol window max_years g hm
      simp only [Glacier.progress_to_equilibrium]
      omega

/-- Witness for C5: a concrete run over the demo glacier with a year budget
of 3. -/
theorem C5_eq_states_append_only_witness :
    (1 ≤ 3) ∧
      ((demoGlacier.progress_to_year demoStep 5).1.eq_states = demoGlacier.eq_states ∧
       ∃ e : EqState,
         (demoGlacier.progress_to_equilibrium demoStep 0 1 3).1.eq_states =
           demoGlacier.eq_states ++ [e] ∧
         demoGlacier.current_year < e.year ∧
         (∀ e' ∈ demoGlacier.eq_states, e'.year ≤ demoGlacier.current_year →
           e'.year < e.year)) :=
  ⟨by decide, C5_eq_states_append_only demoStep 0 1 3 5 demoGlacier (by decide)⟩

/-! C8: an unconverged equilibrium search stops with a warning and still
records the final state -/

/-- C8: if the equilibrium search runs `max_years` years without the
relative-change tolerance being met, the operation stops at the state
reached after `max_years` years, still appends that state to the
equilibrium-states list, and signals a `ConvergenceWarning`; it returns
normally (never raises or unwinds). -/
theorem C8_convergence_best_effort (step : StepFun) (tol : ℚ) (window max_years : ℕ)
    (g : Glacier)
    (h : ∀ k < max_years, eqCheck window tol (g.progressYears step (k + 1)) = false) :
    g.progress_to_equilibrium step tol window max_years =
      ((g.progressYears step max_years).record_eq_state, some Warning.convergence) := by
  unfold Glacier.progress_to_equilibrium
  induction max_years generalizing g with
  | zero => rfl
  | succ n ih =>
      have h0 : eqCheck window tol (g.progress_one_year step) = false := h 0 (by omega)
      simp only [Glacier.equilibriumLoop, h0, Bool.false_eq_true, if_false]
      have h' : ∀ k < n,
          eqCheck window tol ((g.progress_one_year step).progressYears step (k + 1)) = false := by
        intro k hk
        exact h (k + 1) (by omega)
      rw [ih (g.progress_one_year step) h']
      rfl

/-- Witness for C8: with a trailing window longer than the simulated span
the relative-change test cannot pass, so a 3-year search on the demo glacier
ends in a recorded best-effort state and a `ConvergenceWarning`. -/
theorem C8_convergence_best_effort_witness :
    (∀ k < 3, eqCheck 5 0 (demoGlacier.progressYears demoStep (k + 1)) = false) ∧
      demoGlacier.progress_to_equilibrium demoStep 0 5 3 =
        ((demoGlacier.progressYears demoStep 3).record_eq_state,
          some Warning.convergence) :=
  ⟨by decide, C8_convergence_best_effort demoStep 0 5 3 demoGlacier (by decide)⟩

/-! Lemmas about the first-crossing search -/

theorem find?_range'_characterization {p : ℕ → Bool} {s n t : ℕ}
    (h : (List.range' s n 1).find? p = some t) :
    p t = true ∧ s ≤ t ∧ t < s + n ∧ ∀ u, s ≤ u → u < t → p u = false := by
  induction n generalizing s with
  | zero => simp at h
  | succ n ih =>
      rw [List.range'_succ] at h
      cases hp : p s with
      | true =>
          rw [List.find?_cons_of_pos _ hp] at h
          obtain rfl : s = t := by injection h
          exact ⟨hp, le_refl s, by omega, fun u hu hut => by omega⟩
      | false =>
          rw [List.find?_cons_of_neg _ (by simp [hp])] at h
          obtain ⟨hpt, hst, hlt, hfirst⟩ := ih h
          refine ⟨hpt, by omega, by omega, ?_⟩
          intro u hu hut
          rcases Nat.eq_or_lt_of_le hu with rfl | hu'
          · exact hp
          · exact hfirst u hu' hut

/-! C4: response time is the first threshold crossing, and demands two
equilibrium states -/

/-- C4: `response_time` signals `InsufficientHistoryError` exactly when
fewer than two equilibrium states exist; with at least two, writing `V1`
for the earlier and `V2` for the later consecutive equilibrium volume, it
equals the first year offset `τ` (from the earlier equilibrium year) at
which the recorded volume trajectory has reached or passed the threshold
`V2 - (V2 - V1) * einv`, `einv` standing for `1/e`. -/
theorem C4_response_time (einv : ℚ) (g : Glacier) :
    (g.response_time einv = Except.error "InsufficientHistoryError" ↔
      g.eq_states.length < 2) ∧
      (∀ (e1 e2 : EqState) (rest : List EqState) (t : ℕ),
        g.eq_states.reverse = e2 :: e1 :: rest →
        firstCrossing einv e1.volume e2.volume g.history e1.year e2.year = some t →
        g.response_time einv = Except.ok (t - e1.year) ∧
          crossingAt einv e1.volume e2.volume g.history t = true ∧
          e1.year ≤ t ∧ t ≤ e2.year ∧
          ∀ u, e1.year ≤ u → u < t →
            crossingAt einv e1.volume e2.volume g.history u = false) := by
  constructor
  · have hlen : g.eq_states.length = g.eq_states.reverse.length :=
      (List.length_reverse g.eq_states).symm
    unfold Glacier.response_time
    rcases hrev : g.eq_states.reverse with _ | ⟨a, _ | ⟨b, rest⟩⟩
    · rw [hrev] at hlen
      simp [hlen]
    · rw [hrev] at hlen
      simp [hlen]
    · rw [hrev] at hlen
      simp only [List.length_cons] at hlen
      cases hfc : firstCrossing einv b.volume a.volume g.history b.year a.year <;>
        simp [hfc, hlen]
  · intro e1 e2 rest t hrev hfc
    have hchar := find?_range'_characterization (p := crossingAt einv e1.volume e2.volume g.history)
      (s := e1.year) (n := e2.year + 1 - e1.year) (t := t) hfc
    obtain ⟨hpt, hst, hlt, hfirst⟩ := hchar
    refine ⟨?_, hpt, hst, by omega, hfirst⟩
    unfold Glacier.response_time
    rw [hrev]
    simp [hfc]

/-- A concrete glacier holding two recorded equilibrium states (volumes 2
and 10 at years 2 and 6) and the volume trajectory between them. -/
def demoEqGlacier : Glacier :=
  { bed := demoBed
    mass_balance := demoMB
    current_year := 6
    geometry := ⟨5, 5, 10⟩
    history := [⟨2, 1, 1, 2, 0⟩, ⟨3, 2, 2, 4, 0⟩, ⟨4, 3, 3, 6, 0⟩,
                ⟨5, 4, 4, 8, 0⟩, ⟨6, 5, 5, 10, 0⟩]
    eq_states := [⟨2, 2, 1, 1⟩, ⟨6, 10, 5, 5⟩]
    schedule := none }

/-- Witness for C4: with `einv = 1/3` the threshold is `10 - 8/3`, first
passed at year 5, so the response time is the offset `3`; and a glacier
with fewer than two equilibrium states errors. -/
theorem C4_response_time_witness :
    demoEqGlacier.response_time (mkRat 1 3) = Except.ok 3 ∧
      crossingAt (mkRat 1 3) 2 10 demoEqGlacier.history 5 = true ∧
      (∀ u, 2 ≤ u → u < 5 →
        crossingAt (mkRat 1 3) 2 10 demoEqGlacier.history u = false) ∧
      (demoGlacier.response_time (mkRat 1 3) = Except.error "InsufficientHistoryError" ↔
        demoGlacier.eq_states.length < 2) := by
  have h := (C4_response_time (mkRat 1 3) demoEqGlacier).2 ⟨2, 2, 1, 1⟩ ⟨6, 10, 5, 5⟩ [] 5
    (by decide)
    (by norm_num [firstCrossing, crossingAt, volumeAt, thresholdPassed, List.range',
      List.find?, demoEqGlacier, mkRat, Rat.normalize])
  exact ⟨h.1, h.2.1, h.2.2.2.2, (C4_response_time (mkRat 1 3) demoGlacier).1⟩

/-! Lemmas about bias-series lookup -/

theorem seriesLookup_cons (e : ℕ × ℚ) (rest : List (ℕ × ℚ)) (y : ℕ) :
    seriesLookup (e :: rest) y = if e.1 = y then some e.2 else seriesLookup rest y :=
  rfl

theorem seriesLookup_eq_none (s : List (ℕ × ℚ)) (y : ℕ) (h : ∀ e ∈ s, e.1 ≠ y) :
    seriesLookup s y = none := by
  induction s with
  | nil => rfl
  | cons e rest ih =>
      unfold seriesLookup
      rw [if_neg (h e (by simp))]
      exact ih (fun e' he' => h e' (by simp [he']))

theorem seriesLookup_append_right_ne (s t : List (ℕ × ℚ)) (y : ℕ)
    (h : ∀ e ∈ t, e.1 ≠ y) :
    seriesLookup (s ++ t) y = seriesLookup s y := by
  induction s with
  | nil => simpa using seriesLookup_eq_none t y h
  | cons e rest ih =>
      unfold seriesLookup
      rw [List.cons_append]
      by_cases he : e.1 = y
      · simp [seriesLookup, he]
      · simp only [seriesLookup, if_neg he]
        exact ih

theorem seriesLookup_filter_le (s : List (ℕ × ℚ)) (c y : ℕ) (hy : y ≤ c) :
    seriesLookup (s.filter (fun e => e.1 ≤ c)) y = seriesLookup s y := by
  induction s with
  | nil => rfl
  | cons e rest ih =>
      rw [List.filter_cons]
      by_cases hec : e.1 ≤ c
      · rw [if_pos (by simpa using hec), seriesLookup_cons, seriesLookup_cons]
        by_cases he : e.1 = y
        · rw [if_pos he, if_pos he]
        · rw [if_neg he, if_neg he]
          exact ih
      · have hne : e.1 ≠ y := by omega
        rw [if_neg (by simpa using hec), ih, seriesLookup_cons, if_neg hne]

/-! The two branches of the per-year bias selection (no active schedule) -/

theorem Glacier.progress_one_year_of_lookup_some (step : StepFun) (g : Glacier) (b : ℚ)
    (hs : g.schedule = none)
    (hl : seriesLookup g.mass_balance.temp_bias_series (g.current_year + 1) = some b) :
    g.progress_one_year step =
      { g with
        current_year := g.current_year + 1
        geometry := step g.bed (g.mass_balance.biased_fn b) g.geometry
        history := g.history ++
          [⟨g.current_year + 1,
            (step g.bed (g.mass_balance.biased_fn b) g.geometry).length,
            (step g.bed (g.mass_balance.biased_fn b) g.geometry).area,
            (step g.bed (g.mass_balance.biased_fn b) g.geometry).volume, b⟩] } := by
  unfold Glacier.progress_one_year MassBalance.activeBias
  simp only [hs, hl]

theorem Glacier.progress_one_year_of_lookup_none (step : StepFun) (g : Glacier)
    (hs : g.schedule = none)
    (hl : seriesLookup g.mass_balance.temp_bias_series (g.current_year + 1) = none) :
    g.progress_one_year step =
      { g with
        mass_balance :=
          { g.mass_balance with
            temp_bias_series := g.mass_balance.temp_bias_series ++
              [(g.current_year + 1, g.mass_balance.temp_bias)] }
        current_year := g.current_year + 1
        geometry := step g.bed
          (g.mass_balance.biased_fn g.mass_balance.temp_bias) g.geometry
        history := g.history ++
          [⟨g.current_year + 1,
            (step g.bed (g.mass_balance.biased_fn g.mass_balance.temp_bias)
              g.geometry).length,
            (step g.bed (g.mass_balance.biased_fn g.mass_balance.temp_bias)
              g.geometry).area,
            (step g.bed (g.mass_balance.biased_fn g.mass_balance.temp_bias)
              g.geometry).volume, g.mass_balance.temp_bias⟩] } := by
  unfold Glacier.progress_one_year MassBalance.activeBias
  simp only [hs, hl]
  rfl

/-- Constant-bias run: without a schedule, starting from a bias series whose
recorded years are all in the past, progression appends the constant bias
for every simulated year. -/
theorem Glacier.progressYears_series_of_constant (step : StepFun) :
    ∀ (n : ℕ) (g : Glacier), g.schedule = none →
      (∀ e ∈ g.mass_balance.temp_bias_series, e.1 ≤ g.current_year) →
      (g.progressYears step n).mass_balance.temp_bias_series =
        g.mass_balance.temp_bias_series ++
          (List.range' (g.current_year + 1) n 1).map
            (fun y => (y, g.mass_balance.temp_bias))
  | 0, g, _, _ => by simp [Glacier.progressYears]
  | n + 1, g, hs, hb => by
      have hl : seriesLookup g.mass_balance.temp_bias_series (g.current_year + 1) = none :=
        seriesLookup_eq_none _ _ (fun e he => by have := hb e he; omega)
      have hsched1 : (g.progress_one_year step).schedule = none := by
        rw [Glacier.progress_one_year_of_lookup_none step g hs hl]
        exact hs
      have hb1 : ∀ e ∈ (g.progress_one_year step).mass_balance.temp_bias_series,
          e.1 ≤ (g.progress_one_year step).current_year := by
        rw [Glacier.progress_one_year_of_lookup_none step g hs hl]
        intro e he
        show e.1 ≤ g.current_year + 1
        simp only [List.mem_append, List.mem_singleton] at he
        rcases he with he | he
        · have := hb e he; omega
        · subst he
          exact le_refl _
      have ih := Glacier.progressYears_series_of_constant step n
        (g.progress_one_year step) hsched1 hb1
      rw [Glacier.progressYears_succ, ih,
        Glacier.progress_one_year_of_lookup_none step g hs hl]
      simp only [Glacier.progress_one_year_current_year]
      rw [List.range'_succ]
      simp

/-! C6: per-year bias selection rule -/

/-- C6: during progression (without an active climate-change schedule),
the active bias for each advanced year `y` is chosen by: if the bias series
already holds a value at `y`, that value is used (and the series is left
unchanged); otherwise the mass balance's current constant bias is used and
appended to the series at year `y` — so a constant-bias run produces a bias
series holding that constant for every simulated year. -/
theorem C6_bias_selection (step : StepFun) (g : Glacier) (hs : g.schedule = none) :
    (∀ b, seriesLookup g.mass_balance.temp_bias_series (g.current_year + 1) = some b →
      (g.progress_one_year step).history.map (fun e => (e.year, e.bias)) =
        g.history.map (fun e => (e.year, e.bias)) ++ [(g.current_year + 1, b)] ∧
      (g.progress_one_year step).mass_balance.temp_bias_series =
        g.mass_balance.temp_bias_series) ∧
    (seriesLookup g.mass_balance.temp_bias_series (g.current_year + 1) = none →
      (g.progress_one_year step).history.map (fun e => (e.year, e.bias)) =
        g.history.map (fun e => (e.year, e.bias)) ++
          [(g.current_year + 1, g.mass_balance.temp_bias)] ∧
      (g.progress_one_year step).mass_balance.temp_bias_series =
        g.mass_balance.temp_bias_series ++
          [(g.current_year + 1, g.mass_balance.temp_bias)]) ∧
    (g.mass_balance.temp_bias_series = [] → ∀ n,
      (g.progressYears step n).mass_balance.temp_bias_series =
        (List.range' (g.current_year + 1) n 1).map
          (fun y => (y, g.mass_balance.temp_bias))) := by
  refine ⟨?_, ?_, ?_⟩
  · intro b hl
    rw [Glacier.progress_one_year_of_lookup_some step g b hs hl]
    simp
  · intro hl
    rw [Glacier.progress_one_year_of_lookup_none step g hs hl]
    simp
  · intro hser n
    have h := Glacier.progressYears_series_of_constant step n g hs
      (by rw [hser]; intro e he; simp at he)
    rw [h, hser, List.nil_append]

/-- Witness for C6: a three-year constant-bias run on the demo glacier
records the constant bias 0 at years 1, 2, 3. -/
theorem C6_bias_selection_witness :
    demoGlacier.schedule = none ∧
      (demoGlacier.progressYears demoStep 3).mass_balance.temp_bias_series =
        [(1, 0), (2, 0), (3, 0)] := by
  have h := (C6_bias_selection demoStep demoGlacier rfl).2.2 rfl 3
  exact ⟨rfl, by rw [h]; rfl⟩

/-! C7: past bias entries are never altered -/

theorem Glacier.progress_one_year_series (step : StepFun) (g : Glacier) :
    (g.progress_one_year step).mass_balance.temp_bias_series =
      (g.mass_balance.activeBias (g.current_year + 1)).2.temp_bias_series := by
  unfold Glacier.progress_one_year
  cases g.schedule <;> rfl

theorem Glacier.progress_one_year_lookup_past (step : StepFun) (g : Glacier) (y : ℕ)
    (hy : y ≤ g.current_year) :
    seriesLookup (g.progress_one_year step).mass_balance.temp_bias_series y =
      seriesLookup g.mass_balance.temp_bias_series y := by
  rw [Glacier.progress_one_year_series]
  rcases g.mass_balance.activeBias_snd_series (g.current_year + 1) with h | h <;> rw [h]
  refine seriesLookup_append_right_ne _ _ _ ?_
  intro e he
  simp only [List.mem_singleton] at he
  subst he
  show g.current_year + 1 ≠ y
  omega

theorem Glacier.progressYears_lookup_past (step : StepFun) :
    ∀ (n : ℕ) (g : Glacier) (y : ℕ), y ≤ g.current_year →
      seriesLookup (g.progressYears step n).mass_balance.temp_bias_series y =
        seriesLookup g.mass_balance.temp_bias_series y
  | 0, _, _, _ => rfl
  | n + 1, g, y, hy => by
      rw [Glacier.progressYears_succ,
        Glacier.progressYears_lookup_past step n (g.progress_one_year step) y
          (by rw [Glacier.progress_one_year_current_year]; omega)]
      exact Glacier.progress_one_year_lookup_past step g y hy

/-- C7: assigning a new sequence to the bias series only replaces the
portion beyond the given current year — every lookup at a year at or before
it is unchanged — and progression likewise never alters the recorded value
of any year at or before the year it started from. -/
theorem C7_past_bias_entries_preserved (step : StepFun) (mb : MassBalance) (c : ℕ)
    (new : List ℚ) (g : Glacier) (n : ℕ) :
    (∀ y, y ≤ c →
      seriesLookup (mb.set_temp_bias_series c new).temp_bias_series y =
        seriesLookup mb.temp_bias_series y) ∧
    (∀ y, y ≤ g.current_year →
      seriesLookup (g.progressYears step n).mass_balance.temp_bias_series y =
        seriesLookup g.mass_balance.temp_bias_series y) := by
  constructor
  · intro y hy
    unfold MassBalance.set_temp_bias_series
    rw [seriesLookup_append_right_ne]
    · exact seriesLookup_filter_le mb.temp_bias_series c y hy
    · intro e he
      have h1 : e.1 ∈ List.range' (c + 1) new.length 1 := (List.of_mem_zip he).1
      rw [List.mem_range'_1] at h1
      omega
  · intro y hy
    exact Glacier.progressYears_lookup_past step n g y hy

/-- Witness for C7: overwriting a series holding years 1 and 2 from current
year 2 keeps both past entries, and a 3-year progression of the demo glacier
leaves the (empty) lookup at year 0 unchanged. -/
theorem C7_past_bias_entries_preserved_witness :
    seriesLookup ((MassBalance.mk 3000 4 0
        [(1, 9), (2, 8)]).set_temp_bias_series 2 [5, 6]).temp_bias_series 2 =
      seriesLookup [(1, 9), (2, 8)] 2 ∧
      seriesLookup (demoGlacier.progressYears demoStep 3).mass_balance.temp_bias_series 0 =
        seriesLookup demoGlacier.mass_balance.temp_bias_series 0 := by
  have h := C7_past_bias_entries_preserved demoStep
    (MassBalance.mk 3000 4 0 [(1, 9), (2, 8)]) 2 [5, 6] demoGlacier 3
  exact ⟨h.1 2 (by decide), h.2 0 (by decide)⟩

/-! C10: adding a random climate populates only the future bias series -/

/-- C10: `add_random_climate(d, [lo, hi])` (with `lo ≤ hi` and uniform
draws in `[0, 1]`) appends exactly `d` future entries to the bias series,
one for each of the years `current_year + 1 .. current_year + d`, each value
lying within `[lo, hi]`, and leaves the current year, the history and the
geometry unchanged. -/
theorem C10_add_random_climate (g : Glacier) (d : ℕ) (lo hi : ℚ) (u : ℕ → ℚ)
    (hlh : lo ≤ hi) (hu : ∀ i, 0 ≤ u i ∧ u i ≤ 1) :
    ∃ tail : List (ℕ × ℚ),
      (g.add_random_climate d lo hi u).mass_balance.temp_bias_series =
        g.mass_balance.temp_bias_series ++ tail ∧
      tail.length = d ∧
      tail.map Prod.fst = List.range' (g.current_year + 1) d 1 ∧
      (∀ e ∈ tail, lo ≤ e.2 ∧ e.2 ≤ hi) ∧
      (g.add_random_climate d lo hi u).current_year = g.current_year ∧
      (g.add_random_climate d lo hi u).history = g.history ∧
      (g.add_random_climate d lo hi u).geometry = g.geometry := by
  refine ⟨(List.range d).map (fun i => (g.current_year + 1 + i, lo + (hi - lo) * u i)),
    rfl, by simp, ?_, ?_, rfl, rfl, rfl⟩
  · rw [List.range'_eq_map_range]
    simp only [List.map_map]
    apply List.map_congr_left
    intro i _
    simp [Nat.add_comm]
  · intro e he
    simp only [List.mem_map, List.mem_range] at he
    obtain ⟨i, _, rfl⟩ := he
    obtain ⟨h0, h1⟩ := hu i
    constructor
    · have : 0 ≤ (hi - lo) * u i := mul_nonneg (by linarith) h0
      simp only
      linarith
    · have : (hi - lo) * u i ≤ (hi - lo) * 1 :=
        mul_le_mul_of_nonneg_left h1 (by linarith)
      simp only
      linarith

/-- Witness for C10: three draws of one half over the demo glacier. -/
theorem C10_add_random_climate_witness :
    ((-2 : ℚ) ≤ 2) ∧
      ∃ tail : List (ℕ × ℚ),
        (demoGlacier.add_random_climate 3 (-2) 2
            (fun _ => mkRat 1 2)).mass_balance.temp_bias_series =
          demoGlacier.mass_balance.temp_bias_series ++ tail ∧
        tail.length = 3 ∧
        tail.map Prod.fst = List.range' (demoGlacier.current_year + 1) 3 1 ∧
        (∀ e ∈ tail, (-2 : ℚ) ≤ e.2 ∧ e.2 ≤ 2) ∧
        (demoGlacier.add_random_climate 3 (-2) 2
          (fun _ => mkRat 1 2)).current_year = demoGlacier.current_year ∧
        (demoGlacier.add_random_climate 3 (-2) 2
          (fun _ => mkRat 1 2)).history = demoGlacier.history ∧
        (demoGlacier.add_random_climate 3 (-2) 2
          (fun _ => mkRat 1 2)).geometry = demoGlacier.geometry :=
  ⟨by norm_num,
   C10_add_random_climate demoGlacier 3 (-2) 2 (fun _ => mkRat 1 2) (by norm_num)
     (fun _ => ⟨by norm_num [mkRat, Rat.normalize], by norm_num [mkRat, Rat.normalize]⟩)⟩

end OggmEdu
